import Mathlib

/-!
Shallow embedding of the Autobot application agent (src/application_agent).

Python dictionaries holding action data are embedded as an `ActionData`
structure whose optional fields model `dict.get` returning `None`;
filesystem-dependent library calls (`Path.resolve`, `Path.suffix`,
`Path.exists`, `stat().st_size`) are abstracted as a `FileSystem` record of
functions, and the external LLM / dialog calls of the interpreter are
passed in as explicit arguments.
-/

namespace Autobot

/-- Python `str.lower()`, character by character. -/
def pyLower (s : String) : String :=
  String.mk (s.data.map Char.toLower)

/-- Python `str.startswith(pre)`. -/
def pyStartsWith (s pre : String) : Bool :=
  pre.data.isPrefixOf s.data

/-- Python `str.endswith(suf)`. -/
def pyEndsWith (s suf : String) : Bool :=
  suf.data.isSuffixOf s.data

/-- Python slice `s[n:]` (by characters). -/
def pyDrop (s : String) (n : Nat) : String :=
  String.mk (s.data.drop n)

/-- Python slice `s[:-n]` for a string of length at least `n`. -/
def pyDropRight (s : String) (n : Nat) : String :=
  String.mk (s.data.take (s.data.length - n))

/-- Characters Python `str.strip()` removes. -/
def pySpaceChars : List Char :=
  [' ', '\t', '\n', '\r', Char.ofNat 11, Char.ofNat 12]

/-- Python `str.strip()`: drop whitespace from both ends. -/
def pyStrip (s : String) : String :=
  String.mk
    (((s.data.dropWhile (fun c => pySpaceChars.contains c)).reverse.dropWhile
      (fun c => pySpaceChars.contains c)).reverse)

/-- Substring test on strings: Python `needle in hay`. -/
def strContains (hay needle : String) : Bool :=
  hay.data.tails.any (fun t => needle.data.isPrefixOf t)

/-- Case-insensitive substring test: a search by the pattern
`re.compile(re.escape kw, re.IGNORECASE)` in `text` succeeds exactly when
the lower-cased text contains the lower-cased keyword. -/
def strContainsCI (hay needle : String) : Bool :=
  strContains (pyLower hay) (pyLower needle)

/-- Characters escaped by Python 3.7+ `re.escape` (`_special_chars_map`). -/
def reSpecialChars : List Char :=
  ['(', ')', '[', ']', Char.ofNat 123, Char.ofNat 125, '?', '*', '+', '-',
   '|', '^', '$', '\\', '.', '&', '~', '#', ' ', '\t', '\n', '\r',
   Char.ofNat 11, Char.ofNat 12]

/-- Python `re.escape`: prepend a backslash to each special character. -/
def reEscape (s : String) : String :=
  String.mk (s.data.foldr
    (fun c acc => if reSpecialChars.contains c then '\\' :: c :: acc else c :: acc) [])

namespace Config

/-- config.py lines 32-38. -/
def WHITELISTED_APPLICATIONS : List String :=
  ["notepad.exe", "notepad++.exe", "code.exe", "chrome.exe",
   "firefox.exe", "calculator.exe", "mspaint.exe", "explorer.exe",
   "cmd.exe", "powershell.exe", "wordpad.exe", "write.exe",
   "gedit", "kate", "nano", "vim", "emacs", "firefox", "chromium",
   "nautilus", "dolphin", "thunar", "pcmanfm", "calc", "gnome-calculator"]

/-- config.py lines 40-45. -/
def DANGEROUS_KEYWORDS : List String :=
  ["format", "delete", "remove", "rm -rf", "del /f", "shutdown",
   "restart", "reboot", "kill", "taskkill", "sudo rm", "rmdir",
   "fdisk", "mkfs", "dd if=", "wget", "curl", "powershell -c",
   "cmd /c", "bash -c", "eval", "exec"]

/-- config.py lines 47-50. -/
def SAFE_FILE_EXTENSIONS : List String :=
  [".txt", ".md", ".json", ".csv", ".xml", ".html", ".css", ".js",
   ".py", ".java", ".cpp", ".c", ".h", ".go", ".rs", ".php", ".rb"]

/-- config.py lines 52-56. -/
def RESTRICTED_DIRECTORIES : List String :=
  ["/etc", "/bin", "/sbin", "/usr/bin", "/usr/sbin", "/root",
   "C:\\Windows", "C:\\Program Files", "C:\\Program Files (x86)",
   "/System", "/Library", "/usr/lib", "/lib"]

end Config

/-- Fields of the Python action dictionary used by the pipeline; `Option`
fields model `dict.get` returning `None`, string fields with default `""`
model `dict.get(key, '')`. -/
structure ActionData where
  action : String := ""
  x : Option Int := none
  y : Option Int := none
  text : String := ""
  app_name : String := ""
  file_path : String := ""
  content : String := ""
  key : String := ""
  reasoning : Option String := none
  seconds : Option Rat := none
  error : Option String := none
deriving DecidableEq

/-- Abstraction of the `pathlib` and `os.stat` calls used by safety.py:
`resolve` is `str(Path(p).resolve())`, `suffix` is `Path(p).suffix`,
`fexists` is `Path(p).exists()`, `fsize` is `Path(p).stat().st_size`. -/
structure FileSystem where
  resolve : String → String
  suffix : String → String
  fexists : String → Bool
  fsize : String → Nat

namespace SafetyChecker

/-- First dangerous keyword whose compiled pattern matches `s`
(safety.py lines 21-28: the patterns are compiled in list order). -/
def firstDangerousKeyword (s : String) : Option String :=
  Config.DANGEROUS_KEYWORDS.find? (fun kw => strContainsCI s kw)

/-- safety.py lines 57-71, `_validate_click_action`. -/
def validate_click_action (a : ActionData) : Bool × String :=
  match a.x, a.y with
  | none, _ => (false, "Click coordinates not specified")
  | some _, none => (false, "Click coordinates not specified")
  | some x, some y =>
    if ¬ (0 ≤ x ∧ x ≤ 3840 ∧ 0 ≤ y ∧ y ≤ 2160) then
      (false, "Click coordinates out of reasonable range")
    else
      (true, "Click action validated")

/-- safety.py lines 73-86, `_validate_type_action`. -/
def validate_type_action (a : ActionData) : Bool × String :=
  match firstDangerousKeyword a.text with
  | some kw => (false, "Dangerous text pattern detected: " ++ reEscape kw)
  | none =>
    if a.text.length > 10000 then
      (false, "Text too long for safety")
    else
      (true, "Type action validated")

/-- safety.py lines 88-96, `_validate_app_action`. -/
def validate_app_action (a : ActionData) : Bool × String :=
  let app_name := pyLower a.app_name
  if ! Config.WHITELISTED_APPLICATIONS.any (fun allowed => strContains app_name (pyLower allowed)) then
    (false, "Application '" ++ app_name ++ "' not in whitelist")
  else
    (true, "App action validated")

/-- safety.py lines 98-120, `_validate_file_read`. -/
def validate_file_read (fs : FileSystem) (a : ActionData) : Bool × String :=
  let path := fs.resolve a.file_path
  match Config.RESTRICTED_DIRECTORIES.find? (fun r => pyStartsWith path r) with
  | some r => (false, "Access to restricted directory: " ++ r)
  | none =>
    if ! fs.fexists path then
      (false, "File does not exist")
    else if fs.fsize path > 50 * 1024 * 1024 then
      (false, "File too large for safety")
    else
      (true, "File read validated")

/-- safety.py lines 122-150, `_validate_file_write`. -/
def validate_file_write (fs : FileSystem) (a : ActionData) : Bool × String :=
  let path := fs.resolve a.file_path
  match Config.RESTRICTED_DIRECTORIES.find? (fun r => pyStartsWith path r) with
  | some r => (false, "Write to restricted directory: " ++ r)
  | none =>
    if ! Config.SAFE_FILE_EXTENSIONS.contains (pyLower (fs.suffix path)) then
      (false, "Unsafe file extension: " ++ fs.suffix path)
    else
      match firstDangerousKeyword a.content with
      | some _ => (false, "Dangerous content pattern detected")
      | none =>
        if a.content.length > 10 * 1024 * 1024 then
          (false, "Content too large for safety")
        else
          (true, "File write validated")

/-- safety.py lines 152-161, `_validate_key_action`. -/
def validate_key_action (a : ActionData) : Bool × String :=
  let key := pyLower a.key
  if ["alt+f4", "ctrl+alt+del", "cmd+q", "win+r"].contains key then
    (false, "Dangerous key combination: " ++ key)
  else
    (true, "Key action validated")

/-- safety.py lines 30-55, `validate_action`: dispatch on the lower-cased
action type. -/
def validate_action (fs : FileSystem) (a : ActionData) : Bool × String :=
  let action_type := pyLower a.action
  if ["shell", "execute", "run_command"].contains action_type then
    (false, "Shell command execution is not allowed")
  else if action_type = "click" then validate_click_action a
  else if action_type = "type" then validate_type_action a
  else if action_type = "open_app" then validate_app_action a
  else if action_type = "file_read" then validate_file_read fs a
  else if action_type = "file_write" then validate_file_write fs a
  else if action_type = "key_press" then validate_key_action a
  else (true, "Action type validated")

/-- safety.py lines 163-180, `requires_confirmation`; the first argument is
`config.CONFIRMATION_REQUIRED`. -/
def requires_confirmation (confirmationRequired : Bool) (a : ActionData) : Bool :=
  if ! confirmationRequired then
    false
  else
    let action_type := pyLower a.action
    if ["file_write", "open_app", "close_app"].contains action_type then
      true
    else if (a.file_path ≠ "") ∧
        (["system", "program", "windows"].any (fun kw => strContains (pyLower a.file_path) kw) = true) then
      true
    else
      false

end SafetyChecker

/-- One entry of `conversation_context` (interpreter.py lines 86-93); the
`action` and `reasoning` fields record `action_data.get(...)`, the
`timestamp` the formatted log time. -/
structure ContextEntry where
  command : String
  action : String
  reasoning : Option String
  timestamp : String
deriving DecidableEq

/-- Mutable state of `CommandInterpreter` (interpreter.py lines 14-16). -/
structure InterpreterState where
  conversation_context : List ContextEntry := []
  last_action : Option ActionData := none
deriving DecidableEq

/-- Observable pipeline events: a call of `validate_action_format`, a call
of `safety_checker.validate_action`, the confirmation dialog, and the hand
off to `action_executor.execute_action`. -/
inductive PipeEvent where
  | format_check
  | safety_check
  | confirm_dialog
  | execute
deriving DecidableEq

/-- Result of one `process_command` call together with the successor state
and the pipeline events the call performed. -/
structure ProcessResult where
  success : Bool
  message : String
  action_data : Option ActionData
  state : InterpreterState
  events : List PipeEvent
deriving DecidableEq

/-- Python truthiness of `clarification or fallback`: `None` and the empty
string fall back. -/
def pyOr (o : Option String) (fallback : String) : String :=
  match o with
  | some s => if s = "" then fallback else s
  | none => fallback

namespace CommandInterpreter

/-- interpreter.py lines 84-99, `_update_context`: append an entry and keep
only the last 10 (`self.conversation_context[-10:]`); the timestamp string
produced by the logger is passed in. -/
def update_context (cmd : String) (a : ActionData) (ts : String)
    (s : InterpreterState) : InterpreterState :=
  let ctx := s.conversation_context ++ [⟨cmd, a.action, a.reasoning, ts⟩]
  let ctx := if ctx.length > 10 then ctx.drop (ctx.length - 10) else ctx
  { conversation_context := ctx, last_action := some a }

/-- interpreter.py lines 18-60, `process_command`. The external
collaborators are passed in: `interpreted` is the value returned by
`gpt_interface.interpret_command`, `clarify` is
`gpt_interface.get_clarification`, `confirmed` the outcome of
`safety_checker.show_confirmation_dialog`, `cr` the configuration flag
`config.CONFIRMATION_REQUIRED`, and `ts` the timestamp string. -/
def process_command (fs : FileSystem) (cr : Bool)
    (clarify : String → String → Option String)
    (interpreted : Option ActionData) (confirmed : Bool)
    (ts cmd : String) (s : InterpreterState) : ProcessResult :=
  match interpreted with
  | none => ⟨false, "Failed to interpret command", none, s, []⟩
  | some a =>
    if a.action = "error" then
      let errMsg := a.error.getD "Unknown error"
      ⟨false, pyOr (clarify cmd errMsg) errMsg, some a, s, []⟩
    else
      let v := SafetyChecker.validate_action fs a
      if ! v.1 then
        ⟨false, pyOr (clarify cmd v.2) ("Safety check failed: " ++ v.2),
          some a, s, [.safety_check]⟩
      else if SafetyChecker.requires_confirmation cr a then
        if ! confirmed then
          ⟨false, "Action cancelled by user", some a, s,
            [.safety_check, .confirm_dialog]⟩
        else
          ⟨true,
            "Command interpreted successfully: " ++
              a.reasoning.getD "No reasoning provided",
            some a, update_context cmd a ts s,
            [.safety_check, .confirm_dialog]⟩
      else
        ⟨true,
          "Command interpreted successfully: " ++
            a.reasoning.getD "No reasoning provided",
          some a, update_context cmd a ts s, [.safety_check]⟩

end CommandInterpreter

/-- cli.py lines 189-195, `_requires_cli_confirmation`. -/
def requires_cli_confirmation (a : ActionData) : Bool :=
  ["file_write", "open_app", "close_app"].contains (pyLower a.action)

/-- cli.py lines 151-178, `_process_command`: run the interpreter pipeline
and, on success with an action present, optionally confirm in the CLI and
hand the action to `action_executor.execute_action` (recorded as the
`execute` event). `cliConfirmed` is the answer of `_get_user_confirmation`. -/
def handle_command (fs : FileSystem) (cr : Bool)
    (clarify : String → String → Option String)
    (interpreted : Option ActionData) (confirmed cliConfirmed : Bool)
    (ts cmd : String) (s : InterpreterState) : ProcessResult :=
  let r := CommandInterpreter.process_command fs cr clarify interpreted confirmed ts cmd s
  if r.success then
    match r.action_data with
    | some a =>
      if cr && requires_cli_confirmation a && ! cliConfirmed then r
      else { r with events := r.events ++ [.execute] }
    | none => r
  else r

namespace ActionExecutor

/-- actions.py lines 340-354, `_execute_wait`: the requested duration
(already converted by `float(...)`) is modelled as a rational; the second
component records the duration slept, `none` when no sleep happened. For a
negative duration `time.sleep` raises `ValueError("sleep length must be
non-negative")`, which the surrounding `except` turns into
`(False, "Wait failed: " + str(e))` with no sleep performed. -/
def execute_wait (seconds : Rat) : (Bool × String) × Option Rat :=
  if seconds > 60 then
    ((false, "Wait time too long (max 60 seconds)"), none)
  else if seconds < 0 then
    ((false, "Wait failed: sleep length must be non-negative"), none)
  else
    ((true, "Waited for " ++ toString seconds ++ " seconds"), some seconds)

end ActionExecutor

/-- JSON values as returned by Python `json.loads`; objects keep key order
as association lists (Python dicts preserve insertion order), numbers are
modelled as rationals. -/
inductive Json where
  | str : String → Json
  | num : Rat → Json
  | bool : Bool → Json
  | null : Json
  | arr : List Json → Json
  | obj : List (String × Json) → Json

/-- Lookup of a key in an embedded Python dict: the first binding wins
(`json.loads` never produces duplicates). -/
def dictGet : List (String × Json) → String → Option Json
  | [], _ => none
  | p :: ps, k => if p.1 = k then some p.2 else dictGet ps k

/-- Python `d[k] = v`: overwrite an existing binding in place, else append. -/
def dictInsert (d : List (String × Json)) (k : String) (v : Json) :
    List (String × Json) :=
  if d.any (fun p => p.1 = k) then
    d.map (fun p => if p.1 = k then (k, v) else p)
  else
    d ++ [(k, v)]

/-- Python `d.update(ps)` for a dict argument: insert every binding of `ps`
in order. -/
def dictUpdate (d ps : List (String × Json)) : List (String × Json) :=
  ps.foldl (fun d p => dictInsert d p.1 p.2) d

/-- Whether `j` is the JSON string `s` (Python `j == s` / `j != s`). -/
def Json.isStr (j : Json) (s : String) : Bool :=
  match j with
  | .str t => t = s
  | _ => false

namespace GPTInterface

/-- gpt_interface.py lines 133-142: strip whitespace and markdown fences
from the raw model reply before `json.loads`. -/
def strip_response (response : String) : String :=
  let r := pyStrip response
  let r := if pyStartsWith r "```json" then pyDrop r 7 else r
  let r := if pyStartsWith r "```" then pyDrop r 3 else r
  let r := if pyEndsWith r "```" then pyDropRight r 3 else r
  r

/-- gpt_interface.py lines 145-176: validation and normalization of the
parsed reply. `none` models the `ValueError`/`TypeError` paths caught by
the surrounding `except` (non-dict reply, missing `action`, non-dict
`parameters`). -/
def normalize_parsed (j : Json) : Option (List (String × Json)) :=
  match j with
  | .obj kvs =>
    match dictGet kvs "action" with
    | none => none
    | some av =>
      let reasoning := (dictGet kvs "reasoning").getD (.str "No reasoning provided")
      let base : List (String × Json) :=
        [("action", av), ("reasoning", reasoning),
         ("confidence", (dictGet kvs "confidence").getD (.num (1/2)))]
      if av.isStr "error" then
        some (dictInsert base "error" ((dictGet kvs "error").getD (.str "Unknown error")))
      else
        match dictGet kvs "parameters" with
        | some (.obj ps) => some (dictUpdate base ps)
        | some _ => none
        | none =>
          some (dictUpdate base (kvs.filter
            (fun p => ! ["action", "reasoning", "confidence", "safety_notes"].contains p.1)))
  | _ => none

/-- gpt_interface.py lines 130-183, `_parse_gpt_response`; `jsonParse`
abstracts the Python `json.loads` call (`none` for `JSONDecodeError`). -/
def parse_gpt_response (jsonParse : String → Option Json) (response : String) :
    Option (List (String × Json)) :=
  (jsonParse (strip_response response)).bind normalize_parsed

end GPTInterface

/-- interpreter.py lines 123-134: required fields per action type. -/
def requiredFieldsFor (av : Json) : List String :=
  match av with
  | .str s =>
    if s = "click" then ["x", "y"]
    else if s = "type" then ["text"]
    else if s = "key_press" then ["key"]
    else if s = "open_app" then ["app_name"]
    else if s = "close_app" then ["app_name"]
    else if s = "file_read" then ["file_path"]
    else if s = "file_write" then ["file_path", "content"]
    else if s = "mouse_move" then ["x", "y"]
    else if s = "scroll" then ["direction"]
    else if s = "wait" then ["seconds"]
    else []
  | _ => []

/-- interpreter.py lines 112-141, `validate_action_format`, over the raw
JSON value (a non-object models the non-`dict` input). -/
def validate_action_format (j : Json) : Bool × String :=
  match j with
  | .obj kvs =>
    match dictGet kvs "action" with
    | none => (false, "Missing 'action' field")
    | some av =>
      match (requiredFieldsFor av).find? (fun f => (dictGet kvs f).isNone) with
      | some f =>
        (false, "Missing required field '" ++ f ++ "' for action '" ++
          (match av with | .str s => s | _ => "") ++ "'")
      | none => (true, "Action format valid")
  | _ => (false, "Action data must be a dictionary")

/-- Trivial filesystem abstraction used to instantiate theorems whose claim
does not involve the filesystem. -/
def fsTriv : FileSystem := ⟨id, fun _ => "", fun _ => false, fun _ => 0⟩

/-- Filesystem abstraction in which every path resolves into `/etc`. -/
def fsEtc : FileSystem :=
  ⟨fun _ => "/etc/passwd", fun _ => ".txt", fun _ => true, fun _ => 0⟩

section DispatchLemmas

variable (fs : FileSystem) (a : ActionData)

lemma validate_action_click (h : pyLower a.action = "click") :
    SafetyChecker.validate_action fs a = SafetyChecker.validate_click_action a := by
  simp only [SafetyChecker.validate_action]
  rw [h]
  rfl

lemma validate_action_type (h : pyLower a.action = "type") :
    SafetyChecker.validate_action fs a = SafetyChecker.validate_type_action a := by
  simp only [SafetyChecker.validate_action]
  rw [h]
  rfl

lemma validate_action_open_app (h : pyLower a.action = "open_app") :
    SafetyChecker.validate_action fs a = SafetyChecker.validate_app_action a := by
  simp only [SafetyChecker.validate_action]
  rw [h]
  rfl

lemma validate_action_file_write (h : pyLower a.action = "file_write") :
    SafetyChecker.validate_action fs a = SafetyChecker.validate_file_write fs a := by
  simp only [SafetyChecker.validate_action]
  rw [h]
  rfl

lemma validate_action_close_app (h : pyLower a.action = "close_app") :
    SafetyChecker.validate_action fs a = (true, "Action type validated") := by
  simp only [SafetyChecker.validate_action]
  rw [h]
  rfl

lemma validate_action_mouse_move (h : pyLower a.action = "mouse_move") :
    SafetyChecker.validate_action fs a = (true, "Action type validated") := by
  simp only [SafetyChecker.validate_action]
  rw [h]
  rfl

end DispatchLemmas

/-- Claim C1, counterexample: a `close_app` action whose app name contains
no whitelisted fragment is nonetheless reported safe by `validate_action`
(it is never dispatched to the whitelist check), refuting the claim as
stated for `close_app`. -/
theorem close_app_unwhitelisted_reported_safe :
    Config.WHITELISTED_APPLICATIONS.any
      (fun w => strContains (pyLower "malware.exe") (pyLower w)) = false ∧
    SafetyChecker.validate_action fsTriv
      { action := "close_app", app_name := "malware.exe" } =
      (true, "Action type validated") := by
  constructor
  · decide
  · rfl

/-- Claim C1 (amended): for `open_app` actions, `validate_action` returns
unsafe naming the app exactly when the lower-cased app name contains no
whitelisted fragment, and passes the whitelist check otherwise; `close_app`
actions are not dispatched to the whitelist check and are reported safe by
the default branch regardless of the app name. -/
theorem open_app_whitelist_correct (fs : FileSystem) (a : ActionData) :
    (pyLower a.action = "open_app" →
      (Config.WHITELISTED_APPLICATIONS.any
          (fun w => strContains (pyLower a.app_name) (pyLower w)) = false →
        SafetyChecker.validate_action fs a =
          (false, "Application '" ++ pyLower a.app_name ++ "' not in whitelist")) ∧
      (Config.WHITELISTED_APPLICATIONS.any
          (fun w => strContains (pyLower a.app_name) (pyLower w)) = true →
        SafetyChecker.validate_action fs a = (true, "App action validated"))) ∧
    (pyLower a.action = "close_app" →
      SafetyChecker.validate_action fs a = (true, "Action type validated")) := by
  refine ⟨fun h => ⟨fun hw => ?_, fun hw => ?_⟩, fun h => validate_action_close_app fs a h⟩
  · rw [validate_action_open_app fs a h]
    simp only [SafetyChecker.validate_app_action, hw]
    rfl
  · rw [validate_action_open_app fs a h]
    simp only [SafetyChecker.validate_app_action, hw]
    rfl

/-- Witness for the C1 theorem at concrete inputs: a non-whitelisted and a
whitelisted `open_app` target, and a `close_app` action. -/
theorem open_app_whitelist_correct_witness :
    SafetyChecker.validate_action fsTriv { action := "open_app", app_name := "badapp" } =
      (false, "Application 'badapp' not in whitelist") ∧
    SafetyChecker.validate_action fsTriv { action := "open_app", app_name := "chrome.exe" } =
      (true, "App action validated") ∧
    SafetyChecker.validate_action fsTriv { action := "close_app", app_name := "chrome.exe" } =
      (true, "Action type validated") :=
  ⟨((open_app_whitelist_correct fsTriv { action := "open_app", app_name := "badapp" }).1
      rfl).1 (by decide),
   ((open_app_whitelist_correct fsTriv { action := "open_app", app_name := "chrome.exe" }).1
      rfl).2 (by decide),
   (open_app_whitelist_correct fsTriv { action := "close_app", app_name := "chrome.exe" }).2
      rfl⟩

/-- Claim C2, counterexample: a `mouse_move` action with both coordinates
far outside 0..3840 x 0..2160 is reported safe by `validate_action`
(`mouse_move` is never dispatched to the coordinate check), refuting the
claim as stated for `mouse_move`. -/
theorem mouse_move_out_of_range_reported_safe :
    SafetyChecker.validate_action fsTriv
      { action := "mouse_move", x := some 99999, y := some 99999 } =
      (true, "Action type validated") := rfl

/-- Claim C2 (amended): for `click` actions with both coordinates present,
`validate_action` returns unsafe naming the range problem exactly when a
coordinate falls outside 0..3840 x 0..2160, and passes the coordinate check
when both are in range; `mouse_move` actions are not dispatched to the
coordinate check and are reported safe by the default branch. -/
theorem click_coordinate_range_correct (fs : FileSystem) (a : ActionData) :
    (∀ x y : Int, pyLower a.action = "click" → a.x = some x → a.y = some y →
      (¬ (0 ≤ x ∧ x ≤ 3840 ∧ 0 ≤ y ∧ y ≤ 2160) →
        SafetyChecker.validate_action fs a =
          (false, "Click coordinates out of reasonable range")) ∧
      ((0 ≤ x ∧ x ≤ 3840 ∧ 0 ≤ y ∧ y ≤ 2160) →
        SafetyChecker.validate_action fs a = (true, "Click action validated"))) ∧
    (pyLower a.action = "mouse_move" →
      SafetyChecker.validate_action fs a = (true, "Action type validated")) := by
  refine ⟨fun x y h hx hy => ⟨fun hout => ?_, fun hin => ?_⟩,
    fun h => validate_action_mouse_move fs a h⟩
  · rw [validate_action_click fs a h]
    simp only [SafetyChecker.validate_click_action, hx, hy]
    rw [if_pos hout]
  · rw [validate_action_click fs a h]
    simp only [SafetyChecker.validate_click_action, hx, hy]
    rw [if_neg (by exact fun hcon => hcon hin)]

/-- Witness for the C2 theorem at concrete inputs: an out-of-range and an
in-range click, and an out-of-range mouse move. -/
theorem click_coordinate_range_correct_witness :
    SafetyChecker.validate_action fsTriv { action := "click", x := some 99999, y := some 5 } =
      (false, "Click coordinates out of reasonable range") ∧
    SafetyChecker.validate_action fsTriv { action := "click", x := some 100, y := some 5 } =
      (true, "Click action validated") ∧
    SafetyChecker.validate_action fsTriv
      { action := "mouse_move", x := some 99999, y := some 99999 } =
      (true, "Action type validated") :=
  ⟨((click_coordinate_range_correct fsTriv
        { action := "click", x := some 99999, y := some 5 }).1
      99999 5 rfl rfl rfl).1 (by decide),
   ((click_coordinate_range_correct fsTriv
        { action := "click", x := some 100, y := some 5 }).1
      100 5 rfl rfl rfl).2 (by decide),
   (click_coordinate_range_correct fsTriv
      { action := "mouse_move", x := some 99999, y := some 99999 }).2 rfl⟩

/-- Claim C3 (confirmed): every `file_write` action whose resolved path
starts with a restricted directory prefix is reported unsafe by
`validate_action`, for every file extension and every content. -/
theorem file_write_restricted_directory_unsafe (fs : FileSystem) (a : ActionData)
    (r : String) (h : pyLower a.action = "file_write")
    (hr : r ∈ Config.RESTRICTED_DIRECTORIES)
    (hp : pyStartsWith (fs.resolve a.file_path) r = true) :
    (SafetyChecker.validate_action fs a).1 = false := by
  rw [validate_action_file_write fs a h]
  have hsome : (Config.RESTRICTED_DIRECTORIES.find?
      (fun s => pyStartsWith (fs.resolve a.file_path) s)).isSome :=
    List.find?_isSome.mpr ⟨r, hr, hp⟩
  obtain ⟨r', hfind⟩ := Option.isSome_iff_exists.mp hsome
  simp only [SafetyChecker.validate_file_write, hfind]

/-- Witness for the C3 theorem: writing to `/etc/passwd` (with a safe
extension and harmless content) is rejected. -/
theorem file_write_restricted_directory_unsafe_witness :
    (SafetyChecker.validate_action fsEtc
      { action := "file_write", file_path := "/etc/passwd", content := "x" }).1 = false :=
  file_write_restricted_directory_unsafe fsEtc
    { action := "file_write", file_path := "/etc/passwd", content := "x" }
    "/etc" rfl (by decide) rfl

/-- Claim C4 (confirmed): a `type` action whose text contains some
dangerous keyword as a case-insensitive substring is reported unsafe; a
`type` action whose text contains no such substring and is at most 10000
characters long is reported safe. -/
theorem type_dangerous_keyword_correct (fs : FileSystem) (a : ActionData)
    (h : pyLower a.action = "type") :
    ((∃ kw ∈ Config.DANGEROUS_KEYWORDS, strContainsCI a.text kw = true) →
      (SafetyChecker.validate_action fs a).1 = false) ∧
    ((∀ kw ∈ Config.DANGEROUS_KEYWORDS, strContainsCI a.text kw = false) →
      a.text.length ≤ 10000 →
      SafetyChecker.validate_action fs a = (true, "Type action validated")) := by
  rw [validate_action_type fs a h]
  constructor
  · intro hex
    have hsome : (Config.DANGEROUS_KEYWORDS.find?
        (fun kw => strContainsCI a.text kw)).isSome :=
      List.find?_isSome.mpr hex
    obtain ⟨kw, hfind⟩ := Option.isSome_iff_exists.mp hsome
    simp only [SafetyChecker.validate_type_action, SafetyChecker.firstDangerousKeyword, hfind]
  · intro hall hlen
    have hnone : Config.DANGEROUS_KEYWORDS.find? (fun kw => strContainsCI a.text kw) = none :=
      List.find?_eq_none.mpr (fun kw hkw => by simp [hall kw hkw])
    simp only [SafetyChecker.validate_type_action, SafetyChecker.firstDangerousKeyword, hnone]
    rw [if_neg (by omega)]

/-- Witness for the C4 theorem: a text containing `format` is rejected, a
short harmless text is accepted. -/
theorem type_dangerous_keyword_correct_witness :
    (SafetyChecker.validate_action fsTriv { action := "type", text := "please FORMAT c:" }).1 =
      false ∧
    SafetyChecker.validate_action fsTriv { action := "type", text := "hello" } =
      (true, "Type action validated") :=
  ⟨(type_dangerous_keyword_correct fsTriv { action := "type", text := "please FORMAT c:" }
      rfl).1 ⟨"format", by decide, by decide⟩,
   (type_dangerous_keyword_correct fsTriv { action := "type", text := "hello" } rfl).2
      (by decide) (by decide)⟩

/-- Claim C5 (confirmed): `process_command` succeeds exactly when the
interpreted action exists, its kind is not `error`, safety validation
passed, and confirmation (when required) was granted; on success the
returned action is the interpreted one. -/
theorem process_command_success_iff (fs : FileSystem) (cr : Bool)
    (clarify : String → String → Option String) (interpreted : Option ActionData)
    (confirmed : Bool) (ts cmd : String) (s : InterpreterState) :
    ((CommandInterpreter.process_command fs cr clarify interpreted confirmed ts cmd s).success = true ↔
      ∃ a, interpreted = some a ∧ a.action ≠ "error" ∧
        (SafetyChecker.validate_action fs a).1 = true ∧
        (SafetyChecker.requires_confirmation cr a = true → confirmed = true)) ∧
    ((CommandInterpreter.process_command fs cr clarify interpreted confirmed ts cmd s).success = true →
      (CommandInterpreter.process_command fs cr clarify interpreted confirmed ts cmd s).action_data =
        interpreted) := by
  cases interpreted with
  | none => simp [CommandInterpreter.process_command]
  | some a =>
    by_cases he : a.action = "error"
    · simp [CommandInterpreter.process_command, he]
    · by_cases hv : (SafetyChecker.validate_action fs a).1 = true
      · by_cases hrc : SafetyChecker.requires_confirmation cr a = true
        · by_cases hc : confirmed = true
          · simp [CommandInterpreter.process_command, he, hv, hrc, hc]
          · simp only [Bool.not_eq_true] at hc
            simp [CommandInterpreter.process_command, he, hv, hrc, hc]
        · simp only [Bool.not_eq_true] at hrc
          simp [CommandInterpreter.process_command, he, hv, hrc]
      · simp only [Bool.not_eq_true] at hv
        simp [CommandInterpreter.process_command, he, hv]

/-- Witness for the C5 theorem: a concrete successful run returning the
interpreted action. -/
theorem process_command_success_iff_witness :
    (CommandInterpreter.process_command fsTriv false (fun _ _ => none)
      (some { action := "wait", seconds := some 1 }) true "t" "c" ⟨[], none⟩).success = true :=
  (process_command_success_iff fsTriv false (fun _ _ => none)
      (some { action := "wait", seconds := some 1 }) true "t" "c" ⟨[], none⟩).1.mpr
    ⟨{ action := "wait", seconds := some 1 }, rfl, by decide, by decide, fun _ => rfl⟩

lemma handle_command_events_cases (fs : FileSystem) (cr : Bool)
    (clarify : String → String → Option String) (interpreted : Option ActionData)
    (confirmed cliConfirmed : Bool) (ts cmd : String) (s : InterpreterState) :
    (handle_command fs cr clarify interpreted confirmed cliConfirmed ts cmd s).events =
      (CommandInterpreter.process_command fs cr clarify interpreted confirmed ts cmd s).events ∨
    (handle_command fs cr clarify interpreted confirmed cliConfirmed ts cmd s).events =
      (CommandInterpreter.process_command fs cr clarify interpreted confirmed ts cmd s).events ++
        [PipeEvent.execute] := by
  unfold handle_command
  set r := CommandInterpreter.process_command fs cr clarify interpreted confirmed ts cmd s with hr
  by_cases hs : r.success
  · rw [if_pos hs]
    cases hcd : r.action_data with
    | none => left; rfl
    | some a =>
      dsimp only
      by_cases hcli : (cr && requires_cli_confirmation a && ! cliConfirmed) = true
      · rw [if_pos hcli]; left; rfl
      · rw [if_neg hcli]; right; rfl
  · rw [if_neg hs]; left; rfl

lemma process_command_events_cases (fs : FileSystem) (cr : Bool)
    (clarify : String → String → Option String) (interpreted : Option ActionData)
    (confirmed : Bool) (ts cmd : String) (s : InterpreterState) :
    (CommandInterpreter.process_command fs cr clarify interpreted confirmed ts cmd s).events = [] ∨
    (CommandInterpreter.process_command fs cr clarify interpreted confirmed ts cmd s).events =
      [PipeEvent.safety_check] ∨
    (CommandInterpreter.process_command fs cr clarify interpreted confirmed ts cmd s).events =
      [PipeEvent.safety_check, PipeEvent.confirm_dialog] := by
  cases interpreted with
  | none => simp [CommandInterpreter.process_command]
  | some a =>
    by_cases he : a.action = "error"
    · simp [CommandInterpreter.process_command, he]
    · by_cases hv : (SafetyChecker.validate_action fs a).1 = true
      · by_cases hrc : SafetyChecker.requires_confirmation cr a = true
        · by_cases hc : confirmed = true
          · simp [CommandInterpreter.process_command, he, hv, hrc, hc]
          · simp only [Bool.not_eq_true] at hc
            simp [CommandInterpreter.process_command, he, hv, hrc, hc]
        · simp only [Bool.not_eq_true] at hrc
          simp [CommandInterpreter.process_command, he, hv, hrc]
      · simp only [Bool.not_eq_true] at hv
        simp [CommandInterpreter.process_command, he, hv]

lemma process_command_safety_check_mem (fs : FileSystem) (cr : Bool)
    (clarify : String → String → Option String) (a : ActionData)
    (confirmed : Bool) (ts cmd : String) (s : InterpreterState)
    (he : a.action ≠ "error") :
    PipeEvent.safety_check ∈
      (CommandInterpreter.process_command fs cr clarify (some a) confirmed ts cmd s).events := by
  by_cases hv : (SafetyChecker.validate_action fs a).1 = true
  · by_cases hrc : SafetyChecker.requires_confirmation cr a = true
    · by_cases hc : confirmed = true
      · simp [CommandInterpreter.process_command, he, hv, hrc, hc]
      · simp only [Bool.not_eq_true] at hc
        simp [CommandInterpreter.process_command, he, hv, hrc, hc]
    · simp only [Bool.not_eq_true] at hrc
      simp [CommandInterpreter.process_command, he, hv, hrc]
  · simp only [Bool.not_eq_true] at hv
    simp [CommandInterpreter.process_command, he, hv]

/-- Claim C6, counterexample: a concrete run of the command pipeline in
which the action reaches the safety check and the executor while
`validate_action_format` is never invoked: the claimed ordering
"format validation before safety validation and execution" fails because
the format check does not occur at all. -/
theorem format_check_skipped_on_concrete_run :
    (handle_command fsTriv false (fun _ _ => none)
        (some { action := "wait", seconds := some 1 }) true true "t" "c" ⟨[], none⟩).events =
      [PipeEvent.safety_check, PipeEvent.execute] ∧
    PipeEvent.format_check ∉
      (handle_command fsTriv false (fun _ _ => none)
        (some { action := "wait", seconds := some 1 }) true true "t" "c" ⟨[], none⟩).events := by
  refine ⟨rfl, ?_⟩
  intro hmem
  rw [show (handle_command fsTriv false (fun _ _ => none)
      (some { action := "wait", seconds := some 1 }) true true "t" "c" ⟨[], none⟩).events =
      [PipeEvent.safety_check, PipeEvent.execute] from rfl] at hmem
  simp at hmem

/-- Claim C6 (amended): `validate_action_format` is defined but the
`process_command` pipeline never invokes it — in every run no
`format_check` event occurs, while every successfully interpreted
non-error action does reach the safety check. -/
theorem pipeline_never_runs_format_check (fs : FileSystem) (cr : Bool)
    (clarify : String → String → Option String) (interpreted : Option ActionData)
    (confirmed cliConfirmed : Bool) (ts cmd : String) (s : InterpreterState) :
    PipeEvent.format_check ∉
      (handle_command fs cr clarify interpreted confirmed cliConfirmed ts cmd s).events ∧
    (∀ a, interpreted = some a → a.action ≠ "error" →
      PipeEvent.safety_check ∈
        (handle_command fs cr clarify interpreted confirmed cliConfirmed ts cmd s).events) := by
  have hpc := process_command_events_cases fs cr clarify interpreted confirmed ts cmd s
  have hhc := handle_command_events_cases fs cr clarify interpreted confirmed cliConfirmed ts cmd s
  constructor
  · intro hmem
    rcases hhc with hhc | hhc <;> rw [hhc] at hmem <;>
      rcases hpc with hpc | hpc | hpc <;> rw [hpc] at hmem <;> simp at hmem
  · intro a ha he
    subst ha
    have hmem := process_command_safety_check_mem fs cr clarify a confirmed ts cmd s he
    rcases hhc with hhc | hhc <;> rw [hhc]
    · exact hmem
    · exact List.mem_append_left _ hmem

/-- Witness for the C6 theorem: the concrete run above reaches the safety
check without a format check. -/
theorem pipeline_never_runs_format_check_witness :
    PipeEvent.safety_check ∈
      (handle_command fsTriv false (fun _ _ => none)
        (some { action := "wait", seconds := some 1 }) true true "t" "c" ⟨[], none⟩).events :=
  (pipeline_never_runs_format_check fsTriv false (fun _ _ => none)
      (some { action := "wait", seconds := some 1 }) true true "t" "c" ⟨[], none⟩).2
    { action := "wait", seconds := some 1 } rfl (by decide)

lemma update_context_length_le (cmd : String) (a : ActionData) (ts : String)
    (s : InterpreterState) :
    (CommandInterpreter.update_context cmd a ts s).conversation_context.length ≤ 10 := by
  simp only [CommandInterpreter.update_context]
  split_ifs with h
  · rw [List.length_drop]
    omega
  · simp only [List.length_append, List.length_cons, List.length_nil] at h ⊢
    omega

/-- Action handed to the interpreter in the eleven-step history scenario. -/
def c8_action (i : Nat) : ActionData :=
  { action := "wait", reasoning := some (toString i) }

/-- One successful `process_command` step of the history scenario. -/
def c8_step (s : InterpreterState) (i : Nat) : InterpreterState :=
  (CommandInterpreter.process_command fsTriv true (fun _ _ => none) (some (c8_action i)) true
    (toString i) (toString i) s).state

/-- Interpreter state after `n` steps of the history scenario. -/
def c8_states : Nat → InterpreterState
  | 0 => ⟨[], none⟩
  | n + 1 => c8_step (c8_states n) n

/-- Context entry recorded by step `i` of the history scenario. -/
def c8_entry (i : Nat) : ContextEntry :=
  ⟨toString i, "wait", some (toString i), toString i⟩

/-- Claim C8 (confirmed): the conversation history holds at most 10
entries after every `process_command` call (given the bound held before),
and after 11 successful sequential calls exactly the 10 most recent
entries remain, in order, the oldest evicted. -/
theorem conversation_history_ring_buffer :
    (∀ (fs : FileSystem) (cr : Bool) (clarify : String → String → Option String)
        (interpreted : Option ActionData) (confirmed : Bool) (ts cmd : String)
        (s : InterpreterState),
      s.conversation_context.length ≤ 10 →
      (CommandInterpreter.process_command fs cr clarify interpreted confirmed ts cmd
        s).state.conversation_context.length ≤ 10) ∧
    (List.range 11).all
      (fun i => (CommandInterpreter.process_command fsTriv true (fun _ _ => none)
        (some (c8_action i)) true (toString i) (toString i) (c8_states i)).success) = true ∧
    (c8_states 11).conversation_context = ((List.range 11).drop 1).map c8_entry := by
  refine ⟨?_, by decide, by decide⟩
  intro fs cr clarify interpreted confirmed ts cmd s hlen
  cases interpreted with
  | none => simpa [CommandInterpreter.process_command] using hlen
  | some a =>
    by_cases he : a.action = "error"
    · simpa [CommandInterpreter.process_command, he] using hlen
    · by_cases hv : (SafetyChecker.validate_action fs a).1 = true
      · by_cases hrc : SafetyChecker.requires_confirmation cr a = true
        · by_cases hc : confirmed = true
          · simpa [CommandInterpreter.process_command, he, hv, hrc, hc] using
              update_context_length_le cmd a ts s
          · simp only [Bool.not_eq_true] at hc
            simpa [CommandInterpreter.process_command, he, hv, hrc, hc] using hlen
        · simp only [Bool.not_eq_true] at hrc
          simpa [CommandInterpreter.process_command, he, hv, hrc] using
            update_context_length_le cmd a ts s
      · simp only [Bool.not_eq_true] at hv
        simpa [CommandInterpreter.process_command, he, hv] using hlen

/-- Witness for the C8 theorem: the bound applied at a concrete state. -/
theorem conversation_history_ring_buffer_witness :
    (CommandInterpreter.process_command fsTriv true (fun _ _ => none)
      (some (c8_action 0)) true "0" "0" ⟨[], none⟩).state.conversation_context.length ≤ 10 :=
  conversation_history_ring_buffer.1 fsTriv true (fun _ _ => none)
    (some (c8_action 0)) true "0" "0" ⟨[], none⟩ (by decide)

/-- Claim C9, counterexample: a requested duration of -1 seconds is at
most 60, yet the executor returns failure (the `time.sleep` ValueError
path) and performs no sleep, refuting the claim that every duration at
most 60 seconds is slept and succeeds. -/
theorem negative_wait_rejected_without_sleep :
    (-1 : Rat) ≤ 60 ∧
    ActionExecutor.execute_wait (-1) =
      ((false, "Wait failed: sleep length must be non-negative"), none) :=
  ⟨by norm_num, rfl⟩

/-- Claim C9 (amended): the executor rejects a `wait` longer than 60
seconds citing the ceiling and performing no sleep; a negative duration
fails with the `time.sleep` ValueError message, also with no sleep; and
for durations between 0 and 60 seconds it sleeps exactly the requested
duration and succeeds. -/
theorem execute_wait_ceiling (seconds : Rat) :
    (seconds > 60 →
      ActionExecutor.execute_wait seconds =
        ((false, "Wait time too long (max 60 seconds)"), none)) ∧
    (seconds < 0 →
      ActionExecutor.execute_wait seconds =
        ((false, "Wait failed: sleep length must be non-negative"), none)) ∧
    (0 ≤ seconds → seconds ≤ 60 →
      (ActionExecutor.execute_wait seconds).1.1 = true ∧
      (ActionExecutor.execute_wait seconds).2 = some seconds) := by
  refine ⟨fun h => ?_, fun h => ?_, fun h0 h60 => ?_⟩
  · simp only [ActionExecutor.execute_wait]
    rw [if_pos h]
  · simp only [ActionExecutor.execute_wait]
    rw [if_neg (by exact fun hgt => absurd (le_of_lt h) (not_le.mpr (by linarith))),
      if_pos h]
  · simp only [ActionExecutor.execute_wait]
    rw [if_neg (by exact fun hgt => absurd h60 (not_le.mpr hgt)),
      if_neg (by exact fun hlt => absurd h0 (not_le.mpr hlt))]
    exact ⟨rfl, rfl⟩

/-- Witness for the C9 theorem at 120 seconds (rejected citing the
ceiling), -1 seconds (rejected without sleeping) and 0.1 seconds (slept,
success). -/
theorem execute_wait_ceiling_witness :
    ActionExecutor.execute_wait 120 =
      ((false, "Wait time too long (max 60 seconds)"), none) ∧
    ActionExecutor.execute_wait (-1) =
      ((false, "Wait failed: sleep length must be non-negative"), none) ∧
    (ActionExecutor.execute_wait (1/10)).1.1 = true ∧
    (ActionExecutor.execute_wait (1/10)).2 = some (1/10) :=
  ⟨(execute_wait_ceiling 120).1 (by norm_num),
   (execute_wait_ceiling (-1)).2.1 (by norm_num),
   ((execute_wait_ceiling (1/10)).2.2 (by norm_num) (by norm_num)).1,
   ((execute_wait_ceiling (1/10)).2.2 (by norm_num) (by norm_num)).2⟩

lemma dictGet_eq_none_keys (kvs : List (String × Json)) (k : String)
    (h : dictGet kvs k = none) : ∀ p ∈ kvs, p.1 ≠ k := by
  induction kvs with
  | nil => intro p hp; cases hp
  | cons q qs ih =>
    intro p hp
    by_cases hq : q.1 = k
    · simp only [dictGet, if_pos hq] at h
      exact Option.noConfusion h
    · simp only [dictGet, if_neg hq] at h
      rcases List.mem_cons.mp hp with hph | hph
      · rw [hph]; exact hq
      · exact ih h p hph

lemma dictGet_map_overwrite (d : List (String × Json)) (k' : String) (v : Json) (k : String)
    (h : k' ≠ k) :
    dictGet (d.map (fun p => if p.1 = k' then (k', v) else p)) k = dictGet d k := by
  induction d with
  | nil => rfl
  | cons q qs ih =>
    simp only [List.map_cons]
    by_cases hq : q.1 = k'
    · have hqk : q.1 ≠ k := by rw [hq]; exact h
      simp only [dictGet, if_pos hq, if_neg h, if_neg hqk]
      exact ih
    · by_cases hqk : q.1 = k
      · simp only [dictGet, if_neg hq, if_pos hqk]
      · simp only [dictGet, if_neg hq, if_neg hqk]
        exact ih

lemma dictGet_append_single (d : List (String × Json)) (k' : String) (v : Json) (k : String)
    (h : k' ≠ k) :
    dictGet (d ++ [(k', v)]) k = dictGet d k := by
  induction d with
  | nil => simp only [List.nil_append, dictGet, if_neg h]
  | cons q qs ih =>
    by_cases hqk : q.1 = k
    · simp only [List.cons_append, dictGet, if_pos hqk]
    · simp only [List.cons_append, dictGet, if_neg hqk]
      exact ih

lemma dictGet_dictInsert_of_ne (d : List (String × Json)) (k' : String) (v : Json) (k : String)
    (h : k' ≠ k) :
    dictGet (dictInsert d k' v) k = dictGet d k := by
  unfold dictInsert
  split_ifs with hany
  · exact dictGet_map_overwrite d k' v k h
  · exact dictGet_append_single d k' v k h

lemma dictGet_dictUpdate_of_ne (d ps : List (String × Json)) (k : String)
    (h : ∀ p ∈ ps, p.1 ≠ k) :
    dictGet (dictUpdate d ps) k = dictGet d k := by
  induction ps generalizing d with
  | nil => rfl
  | cons q qs ih =>
    rw [show dictUpdate d (q :: qs) = dictUpdate (dictInsert d q.1 q.2) qs from rfl]
    rw [ih (dictInsert d q.1 q.2) (fun p hp => h p (List.mem_cons_of_mem q hp))]
    exact dictGet_dictInsert_of_ne d q.1 q.2 k (h q (List.mem_cons_self q qs))

/-- Raw model reply of the round-trip scenario. -/
def c7_reply : String :=
  "\x7b\"action\":\"click\",\"parameters\":\x7b\"x\":10,\"y\":20\x7d,\"reasoning\":\"r\"\x7d"

/-- JSON value `json.loads` returns for `c7_reply`. -/
def c7_json : Json :=
  .obj [("action", .str "click"),
        ("parameters", .obj [("x", .num 10), ("y", .num 20)]),
        ("reasoning", .str "r")]

/-- Normalized action dictionary expected from `c7_reply`. -/
def c7_expected : List (String × Json) :=
  [("action", .str "click"), ("reasoning", .str "r"), ("confidence", .num (1/2)),
   ("x", .num 10), ("y", .num 20)]

/-- Concrete stand-in for `json.loads` behaving honestly on `c7_reply`. -/
def c7_loads : String → Option Json :=
  fun s => if s = c7_reply then some c7_json else none

/-- Claim C7 (confirmed): parsing the reply
`\x7b"action":"click","parameters":\x7b"x":10,"y":20\x7d,"reasoning":"r"\x7d`
yields an action dictionary with x=10, y=20, reasoning="r" and the default
confidence 0.5, for any `json.loads` oracle that decodes the reply to its
JSON value. -/
theorem parse_click_reply_normalizes (jsonParse : String → Option Json)
    (h : jsonParse (GPTInterface.strip_response c7_reply) = some c7_json) :
    GPTInterface.parse_gpt_response jsonParse c7_reply = some c7_expected ∧
    dictGet c7_expected "x" = some (.num 10) ∧
    dictGet c7_expected "y" = some (.num 20) ∧
    dictGet c7_expected "reasoning" = some (.str "r") ∧
    dictGet c7_expected "confidence" = some (.num (1/2)) := by
  refine ⟨?_, rfl, rfl, rfl, rfl⟩
  unfold GPTInterface.parse_gpt_response
  rw [h]
  rfl

/-- Witness for the C7 theorem with the concrete `json.loads` oracle. -/
theorem parse_click_reply_normalizes_witness :
    GPTInterface.parse_gpt_response c7_loads c7_reply = some c7_expected :=
  (parse_click_reply_normalizes c7_loads rfl).1

/-- Object bindings of the reply lacking a `reasoning` field. -/
def c10_kvs : List (String × Json) :=
  [("action", .str "click"), ("parameters", .obj [("x", .num 1), ("y", .num 2)])]

/-- Raw model reply lacking a `reasoning` field. -/
def c10_reply : String :=
  "\x7b\"action\":\"click\",\"parameters\":\x7b\"x\":1,\"y\":2\x7d\x7d"

/-- Concrete stand-in for `json.loads` behaving honestly on `c10_reply`. -/
def c10_loads : String → Option Json :=
  fun s => if s = c10_reply then some (.obj c10_kvs) else none

/-- Claim C10, counterexample: a JSON-object reply with an `action` field
but no `reasoning` field is parsed successfully — the adapter defaults the
reasoning instead of failing, refuting the claim that parsing fails. -/
theorem missing_reasoning_reply_still_parsed :
    dictGet c10_kvs "reasoning" = none ∧
    GPTInterface.parse_gpt_response c10_loads c10_reply =
      some [("action", Json.str "click"), ("reasoning", Json.str "No reasoning provided"),
            ("confidence", Json.num (1/2)), ("x", Json.num 1), ("y", Json.num 2)] :=
  ⟨rfl, rfl⟩

/-- Claim C10 (amended): a model reply parsing to a JSON object that has an
`action` field but no `reasoning` field is accepted by the Translation
Adapter — only `action` is required — and the produced action dictionary
carries the default reasoning "No reasoning provided" (provided the
`parameters` field, when present, is an object that does not itself supply
a `reasoning` key). -/
theorem parse_defaults_missing_reasoning (jsonParse : String → Option Json)
    (response : String) (kvs : List (String × Json)) (av : Json)
    (h : jsonParse (GPTInterface.strip_response response) = some (.obj kvs))
    (ha : dictGet kvs "action" = some av)
    (hr : dictGet kvs "reasoning" = none)
    (hp : dictGet kvs "parameters" = none ∨
      ∃ ps, dictGet kvs "parameters" = some (.obj ps) ∧ ∀ p ∈ ps, p.1 ≠ "reasoning") :
    ∃ d, GPTInterface.parse_gpt_response jsonParse response = some d ∧
      dictGet d "reasoning" = some (.str "No reasoning provided") := by
  unfold GPTInterface.parse_gpt_response
  rw [h]
  show ∃ d, GPTInterface.normalize_parsed (.obj kvs) = some d ∧
    dictGet d "reasoning" = some (.str "No reasoning provided")
  unfold GPTInterface.normalize_parsed
  dsimp only
  rw [ha, hr]
  by_cases hb : av.isStr "error" = true
  · simp only [hb, if_pos rfl]
    refine ⟨_, rfl, ?_⟩
    rw [dictGet_dictInsert_of_ne _ _ _ _ (by decide)]
    rfl
  · rcases hp with hp | ⟨ps, hp, hps⟩
    · simp only [hb, hp]
      refine ⟨_, rfl, ?_⟩
      rw [dictGet_dictUpdate_of_ne _ _ _
        (fun p hmem => dictGet_eq_none_keys kvs _ hr p (List.mem_of_mem_filter hmem))]
      rfl
    · simp only [hb, hp]
      refine ⟨_, rfl, ?_⟩
      rw [dictGet_dictUpdate_of_ne _ _ _ hps]
      rfl

/-- Witness for the C10 theorem at the concrete reply lacking reasoning. -/
theorem parse_defaults_missing_reasoning_witness :
    ∃ d, GPTInterface.parse_gpt_response c10_loads c10_reply = some d ∧
      dictGet d "reasoning" = some (.str "No reasoning provided") :=
  parse_defaults_missing_reasoning c10_loads c10_reply c10_kvs (.str "click") rfl rfl rfl
    (Or.inr ⟨[("x", .num 1), ("y", .num 2)], rfl, by decide⟩)

end Autobot
